import Mathlib

/-!
Verification of the `switch_port` CLI command of the tplink-omada-api
repository (`src/tplink_omada_client/cli/command_switch_port.py`).

The command toggles the enable/disable state of a single switch port by
issuing sequential calls to an external site-management client.  We embed
the command shallowly: the external client is an oracle (a structure of
response functions), and every call the command issues — reads, mutating
updates, the fixed sleep, and console prints — is recorded in a trace of
events.  A run of a command function is a function from the trace so far
to an `Except` outcome paired with the extended trace; errors keep the
trace accumulated up to the failing call, mirroring an uncaught Python
exception.
-/

set_option autoImplicit false

namespace SwitchPort

/-- A JSON-ish value appearing in port raw data and update payloads. -/
inductive Value where
  | vBool (b : Bool)
  | vNat (n : Nat)
  | vStr (s : String)
  deriving DecidableEq, Repr

/-- An enumeration member of the collaborator library; the command only ever
reads its `.value`. -/
structure EnumMember where
  value : Nat
  deriving DecidableEq, Repr

/-- Raw data dictionary: an association list of string keys to values. -/
abbrev RawData := List (String × Value)

/-- First value bound to key `k`, mirroring Python dict lookup. -/
def lookupValue : RawData → String → Option Value
  | [], _ => none
  | (k', v) :: rest, k => if k' = k then some v else lookupValue rest k

/-- Python `k in d` on a dict. -/
def containsKey (d : RawData) (k : String) : Bool :=
  (lookupValue d k).isSome

/-- Overwrite a binding when its key is `k`. -/
def replaceKey (k : String) (v : Value) (kv : String × Value) :
    String × Value :=
  if kv.1 = k then (k, v) else kv

/-- Python `d[k] = v` on a dict: overwrite the binding if the key is present,
otherwise append the new binding at the end (dicts preserve insertion
order). -/
def setKey (d : RawData) (k : String) (v : Value) : RawData :=
  if containsKey d k then
    d.map (replaceKey k v)
  else
    d ++ [(k, v)]

/-- Modelled from the spec: the collaborator's `OmadaSwitchPortDetails`
(`devices.py` is not part of the sources; spec section 6 lists the fields
the command reads: `has_schedule`, `profile_id`, `is_disabled`, the raw
field map, and the current settings used by the preserve payload). -/
structure OmadaSwitchPortDetails where
  operation : String
  link_speed : EnumMember
  duplex : EnumMember
  eth_802_1x_control : EnumMember
  poe_mode : EnumMember
  bandwidth_limit_mode : EnumMember
  lldp_med_enabled : Bool
  spanning_tree_enabled : Bool
  loopback_detect_enabled : Bool
  port_isolation_enabled : Bool
  topology_notify_enabled : Bool
  profile_id : String
  has_schedule : Bool
  is_disabled : Bool
  raw_data : RawData
  deriving DecidableEq, Repr

/-- Modelled from the spec: a port profile as returned by
`get_port_profiles` — a `{name, profile_id}` pair (spec section 6). -/
structure OmadaPortProfile where
  name : String
  profile_id : String
  deriving DecidableEq, Repr

/-- Modelled from the spec: the collaborator's `OmadaDevice`; the command
only uses it as an opaque handle identifying the target switch, so we keep
its MAC address. -/
structure OmadaDevice where
  mac : String
  deriving DecidableEq, Repr

/-- One observable step of a command run: a call to the external client, a
sleep, or a console print. -/
inductive Event where
  | getSiteClient
  | getDeviceMac (arg : String)
  | getDevice (mac : String)
  | getSwitchPort (mac : String) (port : Nat)
  | updateProfile (mac : String) (port : Nat) (profile_id : String)
  | updateOverrides (mac : String) (port : Nat) (overrides : RawData)
  | getPortProfiles
  | sleepFor (seconds : Nat)
  | println (msg : String)
  | dumpRaw (raw : RawData)
  deriving DecidableEq, Repr

/-- The trace of events a run has produced so far. -/
abbrev Trace := List Event

/-- An error terminating a run: an exception propagating out of a client
call, or a `ValueError` raised by the command itself. -/
inductive CliErr where
  | clientError (msg : String)
  | valueError (msg : String)
  deriving DecidableEq, Repr

/-- The effect monad of the embedding: a run extends the trace and either
produces a value or stops with an uncaught error, keeping the trace of the
calls already issued. -/
def CliM (α : Type) : Type := Trace → Except CliErr α × Trace

namespace CliM

def pure {α : Type} (a : α) : CliM α := fun t => (Except.ok a, t)

def bind {α β : Type} (m : CliM α) (k : α → CliM β) : CliM β := fun t =>
  match m t with
  | (Except.ok a, t') => k a t'
  | (Except.error e, t') => (Except.error e, t')

instance : Monad CliM where
  pure := @CliM.pure
  bind := @CliM.bind

/-- Record an event without touching the outcome. -/
def emit (e : Event) : CliM Unit := fun t => (Except.ok (), t ++ [e])

/-- Raise a `ValueError`, as Python `raise ValueError(msg)`. -/
def raiseValueError {α : Type} (msg : String) : CliM α := fun t =>
  (Except.error (CliErr.valueError msg), t)

/-- Turn a client response into an outcome: a failure becomes an uncaught
client exception. -/
def ofResponse {α : Type} : Except String α → Except CliErr α
  | Except.ok a => Except.ok a
  | Except.error e => Except.error (CliErr.clientError e)

end CliM

/-- Number of `get_switch_port` calls already issued in a trace; used to
index the oracle's per-call responses. -/
def countReads (t : Trace) : Nat :=
  t.countP fun e =>
    match e with
    | Event.getSwitchPort _ _ => true
    | _ => false

/-- Number of mutating `update_switch_port` calls already issued. -/
def countUpdates (t : Trace) : Nat :=
  t.countP fun e =>
    match e with
    | Event.updateProfile _ _ _ => true
    | Event.updateOverrides _ _ _ => true
    | _ => false

/-- The mutating calls of a trace, in order. -/
def mutEvents (t : Trace) : Trace :=
  t.filter fun e =>
    match e with
    | Event.updateProfile _ _ _ => true
    | Event.updateOverrides _ _ _ => true
    | _ => false

/-- Modelled from the spec: the external site client (spec section 6's
collaborator contract).  Each operation is an oracle giving the response of
the n-th call of that kind; an `Except.error` response models the call
raising. -/
structure SiteClient where
  get_switch_port_resp : Nat → Except String OmadaSwitchPortDetails
  update_switch_port_resp : Nat → Except String Unit
  get_port_profiles_resp : Except String (List OmadaPortProfile)

namespace SiteClient

/-- `await site_client.get_switch_port(device, port)`. -/
def get_switch_port (sc : SiteClient) (device : OmadaDevice) (port : Nat) :
    CliM OmadaSwitchPortDetails := fun t =>
  (CliM.ofResponse (sc.get_switch_port_resp (countReads t)),
    t ++ [Event.getSwitchPort device.mac port])

/-- `await site_client.update_switch_port(device, port, profile_id=pid)`. -/
def update_switch_port_profile (sc : SiteClient) (device : OmadaDevice)
    (port : Nat) (profile_id : String) : CliM Unit := fun t =>
  (CliM.ofResponse (sc.update_switch_port_resp (countUpdates t)),
    t ++ [Event.updateProfile device.mac port profile_id])

/-- `await site_client.update_switch_port(device, port, overrides=payload)`. -/
def update_switch_port_overrides (sc : SiteClient) (device : OmadaDevice)
    (port : Nat) (overrides : RawData) : CliM Unit := fun t =>
  (CliM.ofResponse (sc.update_switch_port_resp (countUpdates t)),
    t ++ [Event.updateOverrides device.mac port overrides])

/-- `await site_client.get_port_profiles()`. -/
def get_port_profiles (sc : SiteClient) : CliM (List OmadaPortProfile) :=
  fun t =>
    (CliM.ofResponse sc.get_port_profiles_resp, t ++ [Event.getPortProfiles])

end SiteClient

/-- `await asyncio.sleep(n)`. -/
def asyncio_sleep (n : Nat) : CliM Unit := CliM.emit (Event.sleepFor n)

/-- Python `print(msg)`. -/
def printLine (msg : String) : CliM Unit := CliM.emit (Event.println msg)

/-- Translation of `_preserve_port_settings`: build a payload that preserves
the current port settings, adding the optional raw-data fields only when
they are present in the raw data. -/
def _preserve_port_settings (port_details : OmadaSwitchPortDetails) :
    RawData :=
  let payload : RawData := [
    ("operation", Value.vStr port_details.operation),
    ("linkSpeed", Value.vNat port_details.link_speed.value),
    ("duplex", Value.vNat port_details.duplex.value),
    ("dot1x", Value.vNat port_details.eth_802_1x_control.value),
    ("poe", Value.vNat port_details.poe_mode.value),
    ("bandWidthCtrlType", Value.vNat port_details.bandwidth_limit_mode.value),
    ("lldpMedEnable", Value.vBool port_details.lldp_med_enabled),
    ("spanningTreeEnable", Value.vBool port_details.spanning_tree_enabled),
    ("loopbackDetectEnable", Value.vBool port_details.loopback_detect_enabled),
    ("portIsolationEnable", Value.vBool port_details.port_isolation_enabled)]
  let payload :=
    if containsKey port_details.raw_data "topoNotifyEnable" then
      setKey payload "topoNotifyEnable"
        (Value.vBool port_details.topology_notify_enabled)
    else payload
  let payload :=
    match lookupValue port_details.raw_data "eeeEnable" with
    | some v => setKey payload "eeeEnable" v
    | none => payload
  let payload :=
    match lookupValue port_details.raw_data "flowControlEnable" with
    | some v => setKey payload "flowControlEnable" v
    | none => payload
  let payload :=
    match lookupValue port_details.raw_data "fastLeaveEnable" with
    | some v => setKey payload "fastLeaveEnable" v
    | none => payload
  payload

/-- The `for profile in profiles: if profile.name == "Disable": return ...`
loop of `_get_disable_profile_id`: the id of the first profile named
exactly `"Disable"`, if any. -/
def findFirstDisable : List OmadaPortProfile → Option String
  | [] => none
  | profile :: rest =>
    if profile.name = "Disable" then some profile.profile_id
    else findFirstDisable rest

/-- Translation of `_get_disable_profile_id`: fetch the site's profiles and
return the id of the profile named `"Disable"`, raising a `ValueError` if
there is none. -/
def _get_disable_profile_id (site_client : SiteClient) : CliM String := do
  let profiles ← site_client.get_port_profiles
  match findFirstDisable profiles with
  | some pid => Pure.pure pid
  | none => CliM.raiseValueError "Could not find Disable profile"

/-- Translation of `_enable_port_via_schedule`. -/
def _enable_port_via_schedule (site_client : SiteClient)
    (device : OmadaDevice) (port : Nat) : CliM Bool := do
  let port_details ← site_client.get_switch_port device port
  let original_profile := port_details.profile_id
  if port_details.has_schedule then do
    let payload :=
      setKey (_preserve_port_settings port_details) "scheduleEnable"
        (Value.vBool false)
    site_client.update_switch_port_overrides device port payload
    printLine s!"Port {port} enabled by disabling schedule"
    Pure.pure true
  else do
    let disable_profile_id ← _get_disable_profile_id site_client
    site_client.update_switch_port_profile device port disable_profile_id
    printLine s!"Port {port} temporarily disabled"
    asyncio_sleep 1
    site_client.update_switch_port_profile device port original_profile
    printLine s!"Port {port} re-enabled with original profile"
    let refreshed_port ← site_client.get_switch_port device port
    let status := if !refreshed_port.is_disabled then "enabled" else "disabled"
    printLine s!"Port {port} status: {status}"
    Pure.pure true

/-- Translation of `_disable_port_via_schedule`. -/
def _disable_port_via_schedule (site_client : SiteClient)
    (device : OmadaDevice) (port : Nat) (apply_schedule : Bool) :
    CliM Bool := do
  let port_details ← site_client.get_switch_port device port
  if port_details.has_schedule && apply_schedule then do
    let payload :=
      setKey (_preserve_port_settings port_details) "scheduleEnable"
        (Value.vBool true)
    site_client.update_switch_port_overrides device port payload
    printLine s!"Port {port} disabled by enabling schedule"
    Pure.pure true
  else do
    let disable_profile_id ← _get_disable_profile_id site_client
    site_client.update_switch_port_profile device port disable_profile_id
    printLine s!"Port {port} disabled via profile"
    Pure.pure true

/-- The parsed arguments of the `switch_port` subcommand that the command
body reads. -/
structure Args where
  mac : String
  port : Nat
  enable : Bool
  disableFlag : Bool
  apply_schedule : Bool
  dump : Bool
  deriving DecidableEq, Repr

/-- Modelled from the spec: the connection-level collaborator used before a
site client exists (`get_site_client`, the `get_device_mac` helper of
`cli/util.py`, and `get_device`), again as per-call oracles. -/
structure OmadaClientEnv where
  get_site_client_resp : Except String SiteClient
  get_device_mac_resp : Except String String
  get_device_resp : Except String OmadaDevice

/-- `await client.get_site_client(config.site)`. -/
def get_site_client (env : OmadaClientEnv) : CliM SiteClient := fun t =>
  (CliM.ofResponse env.get_site_client_resp, t ++ [Event.getSiteClient])

/-- Modelled from the spec: `get_device_mac(site_client, args["mac"])` of
`cli/util.py` (not under the sources) resolves a MAC address or device name
to a MAC address and may raise. -/
def get_device_mac (env : OmadaClientEnv) (arg : String) : CliM String :=
  fun t =>
    (CliM.ofResponse env.get_device_mac_resp, t ++ [Event.getDeviceMac arg])

/-- `await site_client.get_device(mac)`. -/
def get_device (env : OmadaClientEnv) (mac : String) : CliM OmadaDevice :=
  fun t =>
    (CliM.ofResponse env.get_device_resp, t ++ [Event.getDevice mac])

/-- Modelled from the spec: `dump_raw_data(args, port_details)` of
`cli/util.py` (not under the sources) prints the port's raw field map and
issues no client call. -/
def dump_raw_data (port_details : OmadaSwitchPortDetails) : CliM Unit :=
  CliM.emit (Event.dumpRaw port_details.raw_data)

/-- Translation of `command_switch_port`: resolve the site client, device
and port, run the enable or the disable branch, optionally re-fetch the
port for the raw dump, and return exit code 0. -/
def command_switch_port (env : OmadaClientEnv) (args : Args) : CliM Nat := do
  let site_client ← get_site_client env
  let mac ← get_device_mac env args.mac
  let device ← get_device env mac
  let port := args.port
  if args.enable then do
    let _result ← _enable_port_via_schedule site_client device port
    Pure.pure ()
  else if args.disableFlag then do
    let _result ←
      _disable_port_via_schedule site_client device port args.apply_schedule
    Pure.pure ()
  else Pure.pure ()
  if args.dump then do
    let port_details ← site_client.get_switch_port device port
    dump_raw_data port_details
  else Pure.pure ()
  Pure.pure 0

/-! ### Concrete scenario data

Concrete devices, port details, profile lists, oracles and argument records
used to evaluate the development on closed inputs (in particular the
scenario of the specification: device MAC `AA:BB:CC:DD:EE:FF`, port 3, no
schedule, a profile `{name: "Disable", id: "p-1"}` and current profile
`p-default`). -/

/-- The scenario's target switch. -/
def devWit : OmadaDevice := ⟨"AA:BB:CC:DD:EE:FF"⟩

/-- Port details of a schedule-less port whose current profile is
`p-default` and which is currently disabled. -/
def pdDefault : OmadaSwitchPortDetails :=
  { operation := "switching", link_speed := ⟨2⟩, duplex := ⟨0⟩,
    eth_802_1x_control := ⟨0⟩, poe_mode := ⟨1⟩, bandwidth_limit_mode := ⟨0⟩,
    lldp_med_enabled := true, spanning_tree_enabled := false,
    loopback_detect_enabled := false, port_isolation_enabled := false,
    topology_notify_enabled := false, profile_id := "p-default",
    has_schedule := false, is_disabled := true, raw_data := [] }

/-- The same port after the enable cycle: no longer disabled. -/
def pdRefreshed : OmadaSwitchPortDetails :=
  { pdDefault with is_disabled := false }

/-- Port details of a port that has a schedule; its raw data carries some
of the optional fields (`eeeEnable`, `topoNotifyEnable`, `fastLeaveEnable`)
but not `flowControlEnable`. -/
def pdSched : OmadaSwitchPortDetails :=
  { pdDefault with
    has_schedule := true
    topology_notify_enabled := true
    raw_data := [("eeeEnable", Value.vBool true),
      ("topoNotifyEnable", Value.vBool false),
      ("fastLeaveEnable", Value.vNat 1)] }

/-- The scenario's profile list: it contains `{name: "Disable", id: "p-1"}`. -/
def profilesWit : List OmadaPortProfile :=
  [⟨"All", "p-0"⟩, ⟨"Disable", "p-1"⟩]

/-- A profile list with two profiles named `"Disable"`. -/
def profilesDup : List OmadaPortProfile :=
  [⟨"All", "p-0"⟩, ⟨"Disable", "p-1"⟩, ⟨"Disable", "p-2"⟩]

/-- A profile list with no profile named `"Disable"`. -/
def profilesNoDisable : List OmadaPortProfile :=
  [⟨"All", "p-0"⟩]

/-- The scenario's site client: the first port read returns `pdDefault`,
later reads return `pdRefreshed`, every update succeeds, and the profile
list is `profilesWit`. -/
def scWit : SiteClient :=
  { get_switch_port_resp := fun n =>
      if n = 0 then Except.ok pdDefault else Except.ok pdRefreshed,
    update_switch_port_resp := fun _ => Except.ok (),
    get_port_profiles_resp := Except.ok profilesWit }

/-- A site client whose port has a schedule. -/
def scSched : SiteClient :=
  { get_switch_port_resp := fun _ => Except.ok pdSched,
    update_switch_port_resp := fun _ => Except.ok (),
    get_port_profiles_resp := Except.ok profilesWit }

/-- A site client with no `"Disable"` profile. -/
def scNoDisable : SiteClient :=
  { get_switch_port_resp := fun _ => Except.ok pdDefault,
    update_switch_port_resp := fun _ => Except.ok (),
    get_port_profiles_resp := Except.ok profilesNoDisable }

/-- A site client with duplicate `"Disable"` profiles. -/
def scDup : SiteClient :=
  { get_switch_port_resp := fun _ => Except.ok pdDefault,
    update_switch_port_resp := fun _ => Except.ok (),
    get_port_profiles_resp := Except.ok profilesDup }

/-- A site client whose initial port read raises. -/
def scReadFail : SiteClient :=
  { get_switch_port_resp := fun _ => Except.error "port not found",
    update_switch_port_resp := fun _ => Except.ok (),
    get_port_profiles_resp := Except.ok profilesWit }

/-- A site client for which the first update succeeds and the second one
raises: the restore step of the enable cycle fails. -/
def scRestoreFail : SiteClient :=
  { get_switch_port_resp := fun n =>
      if n = 0 then Except.ok pdDefault else Except.ok pdRefreshed,
    update_switch_port_resp := fun n =>
      if n = 0 then Except.ok () else Except.error "network down",
    get_port_profiles_resp := Except.ok profilesWit }

/-- A site client for which every update call raises; its port has a
schedule. -/
def scUpdateFail : SiteClient :=
  { get_switch_port_resp := fun _ => Except.ok pdSched,
    update_switch_port_resp := fun _ => Except.error "write failed",
    get_port_profiles_resp := Except.ok profilesWit }

/-- A site client whose updates succeed but whose second port read (the
status re-fetch of the enable cycle) raises. -/
def scRefetchFail : SiteClient :=
  { get_switch_port_resp := fun n =>
      if n = 0 then Except.ok pdDefault else Except.error "refetch failed",
    update_switch_port_resp := fun _ => Except.ok (),
    get_port_profiles_resp := Except.ok profilesWit }

/-- A site client whose profile-list fetch raises. -/
def scProfilesFail : SiteClient :=
  { get_switch_port_resp := fun _ => Except.ok pdDefault,
    update_switch_port_resp := fun _ => Except.ok (),
    get_port_profiles_resp := Except.error "profiles down" }

/-- A site client whose port has a schedule and whose second port read (the
raw-dump re-fetch) raises. -/
def scDumpFail : SiteClient :=
  { get_switch_port_resp := fun n =>
      if n = 0 then Except.ok pdSched else Except.error "boom",
    update_switch_port_resp := fun _ => Except.ok (),
    get_port_profiles_resp := Except.ok profilesWit }

/-- The scenario's connection environment, resolving to `scWit`. -/
def envWit : OmadaClientEnv :=
  { get_site_client_resp := Except.ok scWit,
    get_device_mac_resp := Except.ok "AA:BB:CC:DD:EE:FF",
    get_device_resp := Except.ok devWit }

/-- A connection environment resolving to `scDumpFail`. -/
def envDumpFail : OmadaClientEnv :=
  { get_site_client_resp := Except.ok scDumpFail,
    get_device_mac_resp := Except.ok "AA:BB:CC:DD:EE:FF",
    get_device_resp := Except.ok devWit }

/-- Arguments enabling port 3 of the scenario's switch. -/
def argsEnable : Args :=
  { mac := "AA:BB:CC:DD:EE:FF", port := 3, enable := true,
    disableFlag := false, apply_schedule := false, dump := false }

/-- Arguments enabling port 3 with the raw-dump flag set. -/
def argsEnableDump : Args :=
  { argsEnable with dump := true }

/-- Arguments disabling port 3 with the apply-schedule flag set. -/
def argsDisableSched : Args :=
  { argsEnable with enable := false, disableFlag := true, apply_schedule := true }

/-! ### Run lemmas

Small equations unfolding the monadic plumbing, so that runs can be
computed step by step under hypotheses about the oracle's responses. -/

theorem bind_eq {α β : Type} (m : CliM α) (k : α → CliM β) :
    m >>= k = CliM.bind m k := rfl

theorem CliM.bind_ok {α β : Type} {m : CliM α} {k : α → CliM β} {t t' : Trace}
    {a : α} (h : m t = (Except.ok a, t')) : CliM.bind m k t = k a t' := by
  unfold CliM.bind
  rw [h]

theorem CliM.bind_error {α β : Type} {m : CliM α} {k : α → CliM β}
    {t t' : Trace} {e : CliErr} (h : m t = (Except.error e, t')) :
    CliM.bind m k t = (Except.error e, t') := by
  unfold CliM.bind
  rw [h]

theorem get_switch_port_run (sc : SiteClient) (device : OmadaDevice)
    (port : Nat) (t : Trace) :
    sc.get_switch_port device port t =
      (CliM.ofResponse (sc.get_switch_port_resp (countReads t)),
        t ++ [Event.getSwitchPort device.mac port]) := rfl

theorem update_profile_run (sc : SiteClient) (device : OmadaDevice)
    (port : Nat) (pid : String) (t : Trace) :
    sc.update_switch_port_profile device port pid t =
      (CliM.ofResponse (sc.update_switch_port_resp (countUpdates t)),
        t ++ [Event.updateProfile device.mac port pid]) := rfl

theorem update_overrides_run (sc : SiteClient) (device : OmadaDevice)
    (port : Nat) (o : RawData) (t : Trace) :
    sc.update_switch_port_overrides device port o t =
      (CliM.ofResponse (sc.update_switch_port_resp (countUpdates t)),
        t ++ [Event.updateOverrides device.mac port o]) := rfl

theorem get_port_profiles_run (sc : SiteClient) (t : Trace) :
    sc.get_port_profiles t =
      (CliM.ofResponse sc.get_port_profiles_resp,
        t ++ [Event.getPortProfiles]) := rfl

theorem printLine_run (s : String) (t : Trace) :
    printLine s t = (Except.ok (), t ++ [Event.println s]) := rfl

theorem asyncio_sleep_run (n : Nat) (t : Trace) :
    asyncio_sleep n t = (Except.ok (), t ++ [Event.sleepFor n]) := rfl

theorem pure_run {α : Type} (a : α) (t : Trace) :
    (Pure.pure a : CliM α) t = (Except.ok a, t) := rfl

theorem get_switch_port_ok {sc : SiteClient} {pd : OmadaSwitchPortDetails}
    (device : OmadaDevice) (port : Nat) (t : Trace) (n : Nat)
    (hn : countReads t = n) (h : sc.get_switch_port_resp n = Except.ok pd) :
    sc.get_switch_port device port t =
      (Except.ok pd, t ++ [Event.getSwitchPort device.mac port]) := by
  rw [get_switch_port_run, hn, h]
  rfl

theorem get_switch_port_fail {sc : SiteClient} {e : String}
    (device : OmadaDevice) (port : Nat) (t : Trace) (n : Nat)
    (hn : countReads t = n) (h : sc.get_switch_port_resp n = Except.error e) :
    sc.get_switch_port device port t =
      (Except.error (CliErr.clientError e),
        t ++ [Event.getSwitchPort device.mac port]) := by
  rw [get_switch_port_run, hn, h]
  rfl

theorem update_profile_ok {sc : SiteClient} (device : OmadaDevice)
    (port : Nat) (pid : String) (t : Trace) (n : Nat)
    (hn : countUpdates t = n) (h : sc.update_switch_port_resp n = Except.ok ()) :
    sc.update_switch_port_profile device port pid t =
      (Except.ok (), t ++ [Event.updateProfile device.mac port pid]) := by
  rw [update_profile_run, hn, h]
  rfl

theorem update_profile_fail {sc : SiteClient} {e : String}
    (device : OmadaDevice) (port : Nat) (pid : String) (t : Trace) (n : Nat)
    (hn : countUpdates t = n)
    (h : sc.update_switch_port_resp n = Except.error e) :
    sc.update_switch_port_profile device port pid t =
      (Except.error (CliErr.clientError e),
        t ++ [Event.updateProfile device.mac port pid]) := by
  rw [update_profile_run, hn, h]
  rfl

theorem update_overrides_ok {sc : SiteClient} (device : OmadaDevice)
    (port : Nat) (o : RawData) (t : Trace) (n : Nat)
    (hn : countUpdates t = n) (h : sc.update_switch_port_resp n = Except.ok ()) :
    sc.update_switch_port_overrides device port o t =
      (Except.ok (), t ++ [Event.updateOverrides device.mac port o]) := by
  rw [update_overrides_run, hn, h]
  rfl

theorem get_disable_profile_id_ok {sc : SiteClient}
    {l : List OmadaPortProfile} {d : String} (t : Trace)
    (hp : sc.get_port_profiles_resp = Except.ok l)
    (hd : findFirstDisable l = some d) :
    _get_disable_profile_id sc t =
      (Except.ok d, t ++ [Event.getPortProfiles]) := by
  unfold _get_disable_profile_id
  rw [bind_eq,
    CliM.bind_ok (show sc.get_port_profiles t =
      (Except.ok l, t ++ [Event.getPortProfiles]) by
        rw [get_port_profiles_run, hp]; rfl)]
  simp only [hd]
  rfl

theorem get_disable_profile_id_none {sc : SiteClient}
    {l : List OmadaPortProfile} (t : Trace)
    (hp : sc.get_port_profiles_resp = Except.ok l)
    (hd : findFirstDisable l = none) :
    _get_disable_profile_id sc t =
      (Except.error (CliErr.valueError "Could not find Disable profile"),
        t ++ [Event.getPortProfiles]) := by
  unfold _get_disable_profile_id
  rw [bind_eq,
    CliM.bind_ok (show sc.get_port_profiles t =
      (Except.ok l, t ++ [Event.getPortProfiles]) by
        rw [get_port_profiles_run, hp]; rfl)]
  simp only [hd]
  rfl

theorem containsKey_nil (k : String) : containsKey [] k = false := rfl

theorem containsKey_cons (k1 : String) (v1 : Value) (rest : RawData)
    (k : String) :
    containsKey ((k1, v1) :: rest) k =
      if k1 = k then true else containsKey rest k := by
  by_cases h : k1 = k <;> simp [containsKey, lookupValue, h]

theorem replaceKey_eq (k : String) (v : Value) (k1 : String) (v1 : Value)
    (h : k1 = k) : replaceKey k v (k1, v1) = (k, v) := by
  simp [replaceKey, h]

theorem replaceKey_ne (k : String) (v : Value) (k1 : String) (v1 : Value)
    (h : ¬(k1 = k)) : replaceKey k v (k1, v1) = (k1, v1) := by
  simp [replaceKey, h]

theorem lookupValue_map_replace (rest : RawData) (k k' : String) (v : Value)
    (h : k' ≠ k) :
    lookupValue (rest.map (replaceKey k v)) k' = lookupValue rest k' := by
  induction rest with
  | nil => rfl
  | cons kv tail ih =>
    rcases kv with ⟨k1, v1⟩
    by_cases h1 : k1 = k
    · rw [List.map_cons, replaceKey_eq k v k1 v1 h1]
      subst h1
      simp [lookupValue, Ne.symm h, ih]
    · rw [List.map_cons, replaceKey_ne k v k1 v1 h1]
      simp [lookupValue, ih]

theorem lookupValue_map_replace_self (rest : RawData) (k : String) (v : Value)
    (hc : containsKey rest k = true) :
    lookupValue (rest.map (replaceKey k v)) k = some v := by
  induction rest with
  | nil => simp [containsKey_nil] at hc
  | cons kv tail ih =>
    rcases kv with ⟨k1, v1⟩
    by_cases h1 : k1 = k
    · rw [List.map_cons, replaceKey_eq k v k1 v1 h1]
      simp [lookupValue]
    · rw [List.map_cons, replaceKey_ne k v k1 v1 h1]
      rw [containsKey_cons, if_neg h1] at hc
      simp [lookupValue, h1, ih hc]

theorem lookupValue_append_last (d : RawData) (k k' : String) (v : Value) :
    lookupValue (d ++ [(k, v)]) k' =
      if (lookupValue d k').isSome then lookupValue d k'
      else if k = k' then some v else none := by
  induction d with
  | nil => simp [lookupValue]
  | cons kv tail ih =>
    rcases kv with ⟨k1, v1⟩
    by_cases h1 : k1 = k'
    · simp [lookupValue, h1]
    · simp [lookupValue, h1, ih]

theorem lookupValue_setKey (d : RawData) (k k' : String) (v : Value) :
    lookupValue (setKey d k v) k' =
      if k' = k then some v else lookupValue d k' := by
  by_cases hc : containsKey d k
  · by_cases h : k' = k
    · subst h
      simp [setKey, hc, lookupValue_map_replace_self d k' v hc]
    · simp [setKey, hc, lookupValue_map_replace d k k' v h, h]
  · by_cases h : k' = k
    · subst h
      have hn : (lookupValue d k').isSome = false := by
        simpa [containsKey] using hc
      simp [setKey, hc, lookupValue_append_last, hn]
    · by_cases h2 : (lookupValue d k').isSome = true
      · simp [setKey, hc, lookupValue_append_last, h2, h]
      · simp only [Bool.not_eq_true] at h2
        have hk : ¬(k = k') := fun hk => h hk.symm
        have hnone : lookupValue d k' = none := by
          cases hl : lookupValue d k' with
          | none => rfl
          | some w => rw [hl] at h2; simp at h2
        simp [setKey, hc, lookupValue_append_last, hnone, h, hk]

theorem lookupValue_setKey_self (d : RawData) (k : String) (v : Value) :
    lookupValue (setKey d k v) k = some v := by
  simp [lookupValue_setKey]

theorem lookupValue_setKey_ne (d : RawData) (k k' : String) (v : Value)
    (h : k' ≠ k) : lookupValue (setKey d k v) k' = lookupValue d k' := by
  simp [lookupValue_setKey, h]

/-- The payload built by `_preserve_port_settings` binds every settings key
to the port's current value, binds the optional keys exactly when they are
present in the raw data (for `topoNotifyEnable` using the port's
`topology_notify_enabled` property, for the other three the raw value), and
binds no `scheduleEnable` key. -/
theorem preserve_lookup (pd : OmadaSwitchPortDetails) :
    lookupValue (_preserve_port_settings pd) "operation" =
      some (Value.vStr pd.operation) ∧
    lookupValue (_preserve_port_settings pd) "linkSpeed" =
      some (Value.vNat pd.link_speed.value) ∧
    lookupValue (_preserve_port_settings pd) "duplex" =
      some (Value.vNat pd.duplex.value) ∧
    lookupValue (_preserve_port_settings pd) "dot1x" =
      some (Value.vNat pd.eth_802_1x_control.value) ∧
    lookupValue (_preserve_port_settings pd) "poe" =
      some (Value.vNat pd.poe_mode.value) ∧
    lookupValue (_preserve_port_settings pd) "bandWidthCtrlType" =
      some (Value.vNat pd.bandwidth_limit_mode.value) ∧
    lookupValue (_preserve_port_settings pd) "lldpMedEnable" =
      some (Value.vBool pd.lldp_med_enabled) ∧
    lookupValue (_preserve_port_settings pd) "spanningTreeEnable" =
      some (Value.vBool pd.spanning_tree_enabled) ∧
    lookupValue (_preserve_port_settings pd) "loopbackDetectEnable" =
      some (Value.vBool pd.loopback_detect_enabled) ∧
    lookupValue (_preserve_port_settings pd) "portIsolationEnable" =
      some (Value.vBool pd.port_isolation_enabled) ∧
    (containsKey pd.raw_data "topoNotifyEnable" = true →
      lookupValue (_preserve_port_settings pd) "topoNotifyEnable" =
        some (Value.vBool pd.topology_notify_enabled)) ∧
    (∀ v, lookupValue pd.raw_data "eeeEnable" = some v →
      lookupValue (_preserve_port_settings pd) "eeeEnable" = some v) ∧
    (∀ v, lookupValue pd.raw_data "flowControlEnable" = some v →
      lookupValue (_preserve_port_settings pd) "flowControlEnable" = some v) ∧
    (∀ v, lookupValue pd.raw_data "fastLeaveEnable" = some v →
      lookupValue (_preserve_port_settings pd) "fastLeaveEnable" = some v) ∧
    lookupValue (_preserve_port_settings pd) "scheduleEnable" = none := by
  rcases htopo : containsKey pd.raw_data "topoNotifyEnable" with _ | _ <;>
  rcases heee : lookupValue pd.raw_data "eeeEnable" with _ | v1 <;>
  rcases hflow : lookupValue pd.raw_data "flowControlEnable" with _ | v2 <;>
  rcases hfast : lookupValue pd.raw_data "fastLeaveEnable" with _ | v3 <;>
    simp [_preserve_port_settings, htopo, heee, hflow, hfast,
      lookupValue_setKey, lookupValue]

/-! ### Claims -/

/-- Claim C1: for a port with `has_schedule = false`, the enable operation
issues exactly two `update_switch_port` calls — the first sets the port's
profile to the `"Disable"` profile id, the second restores the original
profile id captured from the initial port read — with the fixed one-unit
sleep between them, after which the port is re-fetched and its
enabled/disabled state reported.  The run's full event trace is exactly
the nine listed events. -/
theorem enable_no_schedule_two_update_calls
    (sc : SiteClient) (device : OmadaDevice) (port : Nat)
    (pd rp : OmadaSwitchPortDetails) (l : List OmadaPortProfile)
    (d status : String)
    (h0 : sc.get_switch_port_resp 0 = Except.ok pd)
    (hs : pd.has_schedule = false)
    (hp : sc.get_port_profiles_resp = Except.ok l)
    (hd : findFirstDisable l = some d)
    (hu0 : sc.update_switch_port_resp 0 = Except.ok ())
    (hu1 : sc.update_switch_port_resp 1 = Except.ok ())
    (h1 : sc.get_switch_port_resp 1 = Except.ok rp)
    (hst : status = if !rp.is_disabled then "enabled" else "disabled") :
    _enable_port_via_schedule sc device port [] =
      (Except.ok true,
        [Event.getSwitchPort device.mac port,
         Event.getPortProfiles,
         Event.updateProfile device.mac port d,
         Event.println s!"Port {port} temporarily disabled",
         Event.sleepFor 1,
         Event.updateProfile device.mac port pd.profile_id,
         Event.println s!"Port {port} re-enabled with original profile",
         Event.getSwitchPort device.mac port,
         Event.println s!"Port {port} status: {status}"]) := by
  subst hst
  simp only [_enable_port_via_schedule, _get_disable_profile_id, bind_eq, CliM.bind,
    SiteClient.get_switch_port, SiteClient.get_port_profiles,
    SiteClient.update_switch_port_profile, printLine, asyncio_sleep, CliM.emit,
    CliM.raiseValueError, CliM.ofResponse, countReads, countUpdates,
    List.countP_cons, List.countP_nil, List.cons_append, List.nil_append,
    List.singleton_append, List.append_nil, pure_run, h0, hs, hp, hd, hu0, hu1, h1,
    Bool.false_eq_true, if_false, if_true, Nat.add_zero, Nat.zero_add]

/-- Claim C2: for a port with `has_schedule = true`, the enable operation
issues exactly one `update_switch_port` call, whose override payload sets
`scheduleEnable` to `false` and preserves all the port's other current
settings (link speed, duplex, 802.1x, PoE mode, bandwidth-control mode,
LLDP-MED, spanning-tree, loopback-detect, port-isolation, plus each
optional field present in the raw source data); the trace shows no profile
lookup and no profile change. -/
theorem enable_with_schedule_single_override
    (sc : SiteClient) (device : OmadaDevice) (port : Nat)
    (pd : OmadaSwitchPortDetails)
    (h0 : sc.get_switch_port_resp 0 = Except.ok pd)
    (hs : pd.has_schedule = true)
    (hu0 : sc.update_switch_port_resp 0 = Except.ok ()) :
    ∃ o : RawData,
      _enable_port_via_schedule sc device port [] =
        (Except.ok true,
          [Event.getSwitchPort device.mac port,
           Event.updateOverrides device.mac port o,
           Event.println s!"Port {port} enabled by disabling schedule"]) ∧
      lookupValue o "scheduleEnable" = some (Value.vBool false) ∧
      lookupValue o "operation" = some (Value.vStr pd.operation) ∧
      lookupValue o "linkSpeed" = some (Value.vNat pd.link_speed.value) ∧
      lookupValue o "duplex" = some (Value.vNat pd.duplex.value) ∧
      lookupValue o "dot1x" = some (Value.vNat pd.eth_802_1x_control.value) ∧
      lookupValue o "poe" = some (Value.vNat pd.poe_mode.value) ∧
      lookupValue o "bandWidthCtrlType" =
        some (Value.vNat pd.bandwidth_limit_mode.value) ∧
      lookupValue o "lldpMedEnable" = some (Value.vBool pd.lldp_med_enabled) ∧
      lookupValue o "spanningTreeEnable" =
        some (Value.vBool pd.spanning_tree_enabled) ∧
      lookupValue o "loopbackDetectEnable" =
        some (Value.vBool pd.loopback_detect_enabled) ∧
      lookupValue o "portIsolationEnable" =
        some (Value.vBool pd.port_isolation_enabled) ∧
      (containsKey pd.raw_data "topoNotifyEnable" = true →
        lookupValue o "topoNotifyEnable" =
          some (Value.vBool pd.topology_notify_enabled)) ∧
      (∀ v, lookupValue pd.raw_data "eeeEnable" = some v →
        lookupValue o "eeeEnable" = some v) ∧
      (∀ v, lookupValue pd.raw_data "flowControlEnable" = some v →
        lookupValue o "flowControlEnable" = some v) ∧
      (∀ v, lookupValue pd.raw_data "fastLeaveEnable" = some v →
        lookupValue o "fastLeaveEnable" = some v) := by
  obtain ⟨hop, hls, hdx, h1x, hpoe, hbw, hlldp, hsp, hlb, hiso, htopo, heee,
    hflow, hfast, hsched⟩ := preserve_lookup pd
  refine ⟨setKey (_preserve_port_settings pd) "scheduleEnable"
    (Value.vBool false), ?_, lookupValue_setKey_self _ _ _, ?_, ?_, ?_, ?_,
    ?_, ?_, ?_, ?_, ?_, ?_, ?_, ?_, ?_, ?_⟩
  · simp only [_enable_port_via_schedule, bind_eq, CliM.bind,
      SiteClient.get_switch_port, SiteClient.update_switch_port_overrides,
      printLine, CliM.emit, CliM.ofResponse, countReads, countUpdates,
      List.countP_cons, List.countP_nil, List.cons_append, List.nil_append,
      List.singleton_append, List.append_nil, pure_run, h0, hs, hu0,
      Bool.false_eq_true, if_false, if_true, Nat.add_zero, Nat.zero_add]
  · rw [lookupValue_setKey_ne _ _ _ _ (by decide)]
    exact hop
  · rw [lookupValue_setKey_ne _ _ _ _ (by decide)]
    exact hls
  · rw [lookupValue_setKey_ne _ _ _ _ (by decide)]
    exact hdx
  · rw [lookupValue_setKey_ne _ _ _ _ (by decide)]
    exact h1x
  · rw [lookupValue_setKey_ne _ _ _ _ (by decide)]
    exact hpoe
  · rw [lookupValue_setKey_ne _ _ _ _ (by decide)]
    exact hbw
  · rw [lookupValue_setKey_ne _ _ _ _ (by decide)]
    exact hlldp
  · rw [lookupValue_setKey_ne _ _ _ _ (by decide)]
    exact hsp
  · rw [lookupValue_setKey_ne _ _ _ _ (by decide)]
    exact hlb
  · rw [lookupValue_setKey_ne _ _ _ _ (by decide)]
    exact hiso
  · intro h
    rw [lookupValue_setKey_ne _ _ _ _ (by decide)]
    exact htopo h
  · intro v hv
    rw [lookupValue_setKey_ne _ _ _ _ (by decide)]
    exact heee v hv
  · intro v hv
    rw [lookupValue_setKey_ne _ _ _ _ (by decide)]
    exact hflow v hv
  · intro v hv
    rw [lookupValue_setKey_ne _ _ _ _ (by decide)]
    exact hfast v hv

/-- Witness for claim C2: the enable operation on the concrete scheduled
port `pdSched` issues the single override update. -/
theorem enable_with_schedule_single_override_witness :
    ∃ o : RawData,
      _enable_port_via_schedule scSched devWit 3 [] =
        (Except.ok true,
          [Event.getSwitchPort "AA:BB:CC:DD:EE:FF" 3,
           Event.updateOverrides "AA:BB:CC:DD:EE:FF" 3 o,
           Event.println "Port 3 enabled by disabling schedule"]) ∧
      lookupValue o "scheduleEnable" = some (Value.vBool false) ∧
      lookupValue o "operation" = some (Value.vStr pdSched.operation) ∧
      lookupValue o "linkSpeed" = some (Value.vNat pdSched.link_speed.value) ∧
      lookupValue o "duplex" = some (Value.vNat pdSched.duplex.value) ∧
      lookupValue o "dot1x" =
        some (Value.vNat pdSched.eth_802_1x_control.value) ∧
      lookupValue o "poe" = some (Value.vNat pdSched.poe_mode.value) ∧
      lookupValue o "bandWidthCtrlType" =
        some (Value.vNat pdSched.bandwidth_limit_mode.value) ∧
      lookupValue o "lldpMedEnable" =
        some (Value.vBool pdSched.lldp_med_enabled) ∧
      lookupValue o "spanningTreeEnable" =
        some (Value.vBool pdSched.spanning_tree_enabled) ∧
      lookupValue o "loopbackDetectEnable" =
        some (Value.vBool pdSched.loopback_detect_enabled) ∧
      lookupValue o "portIsolationEnable" =
        some (Value.vBool pdSched.port_isolation_enabled) ∧
      (containsKey pdSched.raw_data "topoNotifyEnable" = true →
        lookupValue o "topoNotifyEnable" =
          some (Value.vBool pdSched.topology_notify_enabled)) ∧
      (∀ v, lookupValue pdSched.raw_data "eeeEnable" = some v →
        lookupValue o "eeeEnable" = some v) ∧
      (∀ v, lookupValue pdSched.raw_data "flowControlEnable" = some v →
        lookupValue o "flowControlEnable" = some v) ∧
      (∀ v, lookupValue pdSched.raw_data "fastLeaveEnable" = some v →
        lookupValue o "fastLeaveEnable" = some v) := by
  exact enable_with_schedule_single_override scSched devWit 3 pdSched
    rfl rfl rfl

/-- Claim C3: for a port with `has_schedule = true`, the disable operation
invoked with `apply_schedule = true` issues exactly one
`update_switch_port` call, whose override payload sets `scheduleEnable` to
`true` while preserving all current settings; the trace shows no profile
lookup and no profile change. -/
theorem disable_with_schedule_single_override
    (sc : SiteClient) (device : OmadaDevice) (port : Nat)
    (apply_schedule : Bool) (pd : OmadaSwitchPortDetails)
    (h0 : sc.get_switch_port_resp 0 = Except.ok pd)
    (hs : pd.has_schedule = true)
    (ha : apply_schedule = true)
    (hu0 : sc.update_switch_port_resp 0 = Except.ok ()) :
    ∃ o : RawData,
      _disable_port_via_schedule sc device port apply_schedule [] =
        (Except.ok true,
          [Event.getSwitchPort device.mac port,
           Event.updateOverrides device.mac port o,
           Event.println s!"Port {port} disabled by enabling schedule"]) ∧
      lookupValue o "scheduleEnable" = some (Value.vBool true) ∧
      lookupValue o "operation" = some (Value.vStr pd.operation) ∧
      lookupValue o "linkSpeed" = some (Value.vNat pd.link_speed.value) ∧
      lookupValue o "duplex" = some (Value.vNat pd.duplex.value) ∧
      lookupValue o "dot1x" = some (Value.vNat pd.eth_802_1x_control.value) ∧
      lookupValue o "poe" = some (Value.vNat pd.poe_mode.value) ∧
      lookupValue o "bandWidthCtrlType" =
        some (Value.vNat pd.bandwidth_limit_mode.value) ∧
      lookupValue o "lldpMedEnable" = some (Value.vBool pd.lldp_med_enabled) ∧
      lookupValue o "spanningTreeEnable" =
        some (Value.vBool pd.spanning_tree_enabled) ∧
      lookupValue o "loopbackDetectEnable" =
        some (Value.vBool pd.loopback_detect_enabled) ∧
      lookupValue o "portIsolationEnable" =
        some (Value.vBool pd.port_isolation_enabled) ∧
      (containsKey pd.raw_data "topoNotifyEnable" = true →
        lookupValue o "topoNotifyEnable" =
          some (Value.vBool pd.topology_notify_enabled)) ∧
      (∀ v, lookupValue pd.raw_data "eeeEnable" = some v →
        lookupValue o "eeeEnable" = some v) ∧
      (∀ v, lookupValue pd.raw_data "flowControlEnable" = some v →
        lookupValue o "flowControlEnable" = some v) ∧
      (∀ v, lookupValue pd.raw_data "fastLeaveEnable" = some v →
        lookupValue o "fastLeaveEnable" = some v) := by
  subst ha
  obtain ⟨hop, hls, hdx, h1x, hpoe, hbw, hlldp, hsp, hlb, hiso, htopo, heee,
    hflow, hfast, hsched⟩ := preserve_lookup pd
  refine ⟨setKey (_preserve_port_settings pd) "scheduleEnable"
    (Value.vBool true), ?_, lookupValue_setKey_self _ _ _, ?_, ?_, ?_, ?_,
    ?_, ?_, ?_, ?_, ?_, ?_, ?_, ?_, ?_, ?_⟩
  · simp only [_disable_port_via_schedule, bind_eq, CliM.bind,
      SiteClient.get_switch_port, SiteClient.update_switch_port_overrides,
      printLine, CliM.emit, CliM.ofResponse, countReads, countUpdates,
      List.countP_cons, List.countP_nil, List.cons_append, List.nil_append,
      List.singleton_append, List.append_nil, pure_run, h0, hs, hu0,
      Bool.and_self, Bool.false_eq_true, if_false, if_true, Nat.add_zero,
      Nat.zero_add]
  · rw [lookupValue_setKey_ne _ _ _ _ (by decide)]
    exact hop
  · rw [lookupValue_setKey_ne _ _ _ _ (by decide)]
    exact hls
  · rw [lookupValue_setKey_ne _ _ _ _ (by decide)]
    exact hdx
  · rw [lookupValue_setKey_ne _ _ _ _ (by decide)]
    exact h1x
  · rw [lookupValue_setKey_ne _ _ _ _ (by decide)]
    exact hpoe
  · rw [lookupValue_setKey_ne _ _ _ _ (by decide)]
    exact hbw
  · rw [lookupValue_setKey_ne _ _ _ _ (by decide)]
    exact hlldp
  · rw [lookupValue_setKey_ne _ _ _ _ (by decide)]
    exact hsp
  · rw [lookupValue_setKey_ne _ _ _ _ (by decide)]
    exact hlb
  · rw [lookupValue_setKey_ne _ _ _ _ (by decide)]
    exact hiso
  · intro h
    rw [lookupValue_setKey_ne _ _ _ _ (by decide)]
    exact htopo h
  · intro v hv
    rw [lookupValue_setKey_ne _ _ _ _ (by decide)]
    exact heee v hv
  · intro v hv
    rw [lookupValue_setKey_ne _ _ _ _ (by decide)]
    exact hflow v hv
  · intro v hv
    rw [lookupValue_setKey_ne _ _ _ _ (by decide)]
    exact hfast v hv

/-- Witness for claim C3: disabling the concrete scheduled port with
`apply_schedule = true` issues the single override update with
`scheduleEnable = true`. -/
theorem disable_with_schedule_single_override_witness :
    ∃ o : RawData,
      _disable_port_via_schedule scSched devWit 3 true [] =
        (Except.ok true,
          [Event.getSwitchPort "AA:BB:CC:DD:EE:FF" 3,
           Event.updateOverrides "AA:BB:CC:DD:EE:FF" 3 o,
           Event.println "Port 3 disabled by enabling schedule"]) ∧
      lookupValue o "scheduleEnable" = some (Value.vBool true) ∧
      lookupValue o "operation" = some (Value.vStr pdSched.operation) ∧
      lookupValue o "linkSpeed" = some (Value.vNat pdSched.link_speed.value) ∧
      lookupValue o "duplex" = some (Value.vNat pdSched.duplex.value) ∧
      lookupValue o "dot1x" =
        some (Value.vNat pdSched.eth_802_1x_control.value) ∧
      lookupValue o "poe" = some (Value.vNat pdSched.poe_mode.value) ∧
      lookupValue o "bandWidthCtrlType" =
        some (Value.vNat pdSched.bandwidth_limit_mode.value) ∧
      lookupValue o "lldpMedEnable" =
        some (Value.vBool pdSched.lldp_med_enabled) ∧
      lookupValue o "spanningTreeEnable" =
        some (Value.vBool pdSched.spanning_tree_enabled) ∧
      lookupValue o "loopbackDetectEnable" =
        some (Value.vBool pdSched.loopback_detect_enabled) ∧
      lookupValue o "portIsolationEnable" =
        some (Value.vBool pdSched.port_isolation_enabled) ∧
      (containsKey pdSched.raw_data "topoNotifyEnable" = true →
        lookupValue o "topoNotifyEnable" =
          some (Value.vBool pdSched.topology_notify_enabled)) ∧
      (∀ v, lookupValue pdSched.raw_data "eeeEnable" = some v →
        lookupValue o "eeeEnable" = some v) ∧
      (∀ v, lookupValue pdSched.raw_data "flowControlEnable" = some v →
        lookupValue o "flowControlEnable" = some v) ∧
      (∀ v, lookupValue pdSched.raw_data "fastLeaveEnable" = some v →
        lookupValue o "fastLeaveEnable" = some v) := by
  exact disable_with_schedule_single_override scSched devWit 3 true pdSched
    rfl rfl rfl rfl

/-- Claim C4: the disable operation invoked with `apply_schedule = false`,
or on a port with no schedule, issues exactly one `update_switch_port`
call, setting the port's profile to the `"Disable"` profile id, and never
issues a subsequent restore call: the full trace is the four listed events,
with the profile update as its only mutating call. -/
theorem disable_profile_swap_single_update
    (sc : SiteClient) (device : OmadaDevice) (port : Nat)
    (apply_schedule : Bool) (pd : OmadaSwitchPortDetails)
    (l : List OmadaPortProfile) (d : String)
    (h0 : sc.get_switch_port_resp 0 = Except.ok pd)
    (hcond : (pd.has_schedule && apply_schedule) = false)
    (hp : sc.get_port_profiles_resp = Except.ok l)
    (hd : findFirstDisable l = some d)
    (hu0 : sc.update_switch_port_resp 0 = Except.ok ()) :
    _disable_port_via_schedule sc device port apply_schedule [] =
      (Except.ok true,
        [Event.getSwitchPort device.mac port,
         Event.getPortProfiles,
         Event.updateProfile device.mac port d,
         Event.println s!"Port {port} disabled via profile"]) := by
  simp only [_disable_port_via_schedule, _get_disable_profile_id, bind_eq,
    CliM.bind, SiteClient.get_switch_port, SiteClient.get_port_profiles,
    SiteClient.update_switch_port_profile, printLine, CliM.emit,
    CliM.raiseValueError, CliM.ofResponse, countReads, countUpdates,
    List.countP_cons, List.countP_nil, List.cons_append, List.nil_append,
    List.singleton_append, List.append_nil, pure_run, h0, hcond, hp, hd, hu0,
    Bool.false_eq_true, if_false, if_true, Nat.add_zero, Nat.zero_add]

/-- Witness for claim C4: disabling the schedule-less concrete port with
`apply_schedule = false` issues exactly the single profile update to
`p-1`. -/
theorem disable_profile_swap_single_update_witness :
    _disable_port_via_schedule scWit devWit 3 false [] =
      (Except.ok true,
        [Event.getSwitchPort "AA:BB:CC:DD:EE:FF" 3,
         Event.getPortProfiles,
         Event.updateProfile "AA:BB:CC:DD:EE:FF" 3 "p-1",
         Event.println "Port 3 disabled via profile"]) := by
  exact disable_profile_swap_single_update scWit devWit 3 false pdDefault
    profilesWit "p-1" rfl rfl rfl rfl rfl

/-- Witness for claim C1, at the specification's concrete scenario: device
MAC `AA:BB:CC:DD:EE:FF`, port 3, no schedule, a profile
`{name: "Disable", id: "p-1"}`, current profile `p-default`: the calls are
`update(profile=p-1)` then `update(profile=p-default)` and the reported
state is "enabled". -/
theorem enable_no_schedule_two_update_calls_witness :
    _enable_port_via_schedule scWit devWit 3 [] =
      (Except.ok true,
        [Event.getSwitchPort "AA:BB:CC:DD:EE:FF" 3,
         Event.getPortProfiles,
         Event.updateProfile "AA:BB:CC:DD:EE:FF" 3 "p-1",
         Event.println "Port 3 temporarily disabled",
         Event.sleepFor 1,
         Event.updateProfile "AA:BB:CC:DD:EE:FF" 3 "p-default",
         Event.println "Port 3 re-enabled with original profile",
         Event.getSwitchPort "AA:BB:CC:DD:EE:FF" 3,
         Event.println "Port 3 status: enabled"]) := by
  have h := enable_no_schedule_two_update_calls scWit devWit 3 pdDefault
    pdRefreshed profilesWit "p-1" "enabled" rfl rfl rfl rfl rfl rfl rfl rfl
  exact h

/-- Claim C5: if the site's profile list has no profile named exactly
`"Disable"`, the schedule-less enable path and the profile-swap disable
path stop with the lookup `ValueError` before issuing any mutating call;
conversely, whenever a `"Disable"` profile exists the lookup succeeds and
returns its id rather than raising. -/
theorem missing_disable_profile_aborts
    (sc : SiteClient) (device : OmadaDevice) (port : Nat)
    (pd : OmadaSwitchPortDetails) (l : List OmadaPortProfile)
    (h0 : sc.get_switch_port_resp 0 = Except.ok pd)
    (hp : sc.get_port_profiles_resp = Except.ok l) :
    (findFirstDisable l = none → pd.has_schedule = false →
      _enable_port_via_schedule sc device port [] =
        (Except.error (CliErr.valueError "Could not find Disable profile"),
         [Event.getSwitchPort device.mac port, Event.getPortProfiles]) ∧
      mutEvents (_enable_port_via_schedule sc device port []).2 = []) ∧
    (∀ apply_schedule : Bool, findFirstDisable l = none →
      (pd.has_schedule && apply_schedule) = false →
      _disable_port_via_schedule sc device port apply_schedule [] =
        (Except.error (CliErr.valueError "Could not find Disable profile"),
         [Event.getSwitchPort device.mac port, Event.getPortProfiles]) ∧
      mutEvents (_disable_port_via_schedule sc device port apply_schedule []).2 = []) ∧
    (∀ d, findFirstDisable l = some d → ∀ t : Trace,
      _get_disable_profile_id sc t =
        (Except.ok d, t ++ [Event.getPortProfiles])) := by
  refine ⟨fun hd hs => ?_, fun apply_schedule hd hcond => ?_,
    fun d hd t => get_disable_profile_id_ok t hp hd⟩
  · have h : _enable_port_via_schedule sc device port [] =
        (Except.error (CliErr.valueError "Could not find Disable profile"),
         [Event.getSwitchPort device.mac port, Event.getPortProfiles]) := by
      simp only [_enable_port_via_schedule, _get_disable_profile_id, bind_eq,
        CliM.bind, SiteClient.get_switch_port, SiteClient.get_port_profiles,
        SiteClient.update_switch_port_profile, printLine, asyncio_sleep,
        CliM.emit, CliM.raiseValueError, CliM.ofResponse, countReads,
        countUpdates, List.countP_cons, List.countP_nil, List.cons_append,
        List.nil_append, List.singleton_append, List.append_nil, pure_run,
        h0, hs, hp, hd, Bool.false_eq_true, if_false, if_true, Nat.add_zero,
        Nat.zero_add]
    exact ⟨h, by rw [h]; rfl⟩
  · have h : _disable_port_via_schedule sc device port apply_schedule [] =
        (Except.error (CliErr.valueError "Could not find Disable profile"),
         [Event.getSwitchPort device.mac port, Event.getPortProfiles]) := by
      simp only [_disable_port_via_schedule, _get_disable_profile_id, bind_eq,
        CliM.bind, SiteClient.get_switch_port, SiteClient.get_port_profiles,
        SiteClient.update_switch_port_profile, printLine, CliM.emit,
        CliM.raiseValueError, CliM.ofResponse, countReads, countUpdates,
        List.countP_cons, List.countP_nil, List.cons_append, List.nil_append,
        List.singleton_append, List.append_nil, pure_run, h0, hcond, hp, hd,
        Bool.false_eq_true, if_false, if_true, Nat.add_zero, Nat.zero_add]
    exact ⟨h, by rw [h]; rfl⟩

/-- Witness for claim C5: with the profile list `[{All, p-0}]` (no
`"Disable"`), both paths stop with the `ValueError` and an empty mutating
trace; with `profilesWit` the lookup returns `p-1`. -/
theorem missing_disable_profile_aborts_witness :
    (_enable_port_via_schedule scNoDisable devWit 3 [] =
      (Except.error (CliErr.valueError "Could not find Disable profile"),
       [Event.getSwitchPort "AA:BB:CC:DD:EE:FF" 3, Event.getPortProfiles]) ∧
     mutEvents (_enable_port_via_schedule scNoDisable devWit 3 []).2 = []) ∧
    (_disable_port_via_schedule scNoDisable devWit 3 false [] =
      (Except.error (CliErr.valueError "Could not find Disable profile"),
       [Event.getSwitchPort "AA:BB:CC:DD:EE:FF" 3, Event.getPortProfiles]) ∧
     mutEvents (_disable_port_via_schedule scNoDisable devWit 3 false []).2 = []) ∧
    _get_disable_profile_id scWit [] =
      (Except.ok "p-1", [Event.getPortProfiles]) := by
  have h1 := missing_disable_profile_aborts scNoDisable devWit 3 pdDefault
    profilesNoDisable rfl rfl
  have h2 := missing_disable_profile_aborts scWit devWit 3 pdDefault
    profilesWit rfl rfl
  exact ⟨h1.1 rfl rfl, h1.2.1 false rfl rfl, h2.2.2 "p-1" rfl []⟩

/-- Claim C6: in the enable operation the original profile id is captured
from the initial port read before any mutation — whenever the no-schedule
path reaches the restore call, the restore call's profile argument is
exactly the `profile_id` of the initially fetched details (the first six
events are fixed, whatever happens afterwards) — and if the initial read
fails, the operation stops with that error and issues no mutating call. -/
theorem original_profile_capture
    (sc : SiteClient) (device : OmadaDevice) (port : Nat) :
    (∀ pd l d, sc.get_switch_port_resp 0 = Except.ok pd →
      pd.has_schedule = false →
      sc.get_port_profiles_resp = Except.ok l →
      findFirstDisable l = some d →
      sc.update_switch_port_resp 0 = Except.ok () →
      (_enable_port_via_schedule sc device port []).2.take 6 =
        [Event.getSwitchPort device.mac port,
         Event.getPortProfiles,
         Event.updateProfile device.mac port d,
         Event.println s!"Port {port} temporarily disabled",
         Event.sleepFor 1,
         Event.updateProfile device.mac port pd.profile_id]) ∧
    (∀ e, sc.get_switch_port_resp 0 = Except.error e →
      _enable_port_via_schedule sc device port [] =
        (Except.error (CliErr.clientError e),
         [Event.getSwitchPort device.mac port]) ∧
      mutEvents (_enable_port_via_schedule sc device port []).2 = []) := by
  constructor
  · intro pd l d h0 hs hp hd hu0
    rcases hu1 : sc.update_switch_port_resp 1 with e1 | u1
    case error =>
      simp only [_enable_port_via_schedule, _get_disable_profile_id, bind_eq,
        CliM.bind, SiteClient.get_switch_port, SiteClient.get_port_profiles,
        SiteClient.update_switch_port_profile, printLine, asyncio_sleep,
        CliM.emit, CliM.raiseValueError, CliM.ofResponse, countReads,
        countUpdates, List.countP_cons, List.countP_nil, List.cons_append,
        List.nil_append, List.singleton_append, List.append_nil, pure_run,
        h0, hs, hp, hd, hu0, hu1, Bool.false_eq_true, if_false, if_true,
        Nat.add_zero, Nat.zero_add, List.take]
    case ok =>
      rcases h1 : sc.get_switch_port_resp 1 with e2 | rp
      case error =>
        simp only [_enable_port_via_schedule, _get_disable_profile_id,
          bind_eq, CliM.bind, SiteClient.get_switch_port,
          SiteClient.get_port_profiles, SiteClient.update_switch_port_profile,
          printLine, asyncio_sleep, CliM.emit, CliM.raiseValueError,
          CliM.ofResponse, countReads, countUpdates, List.countP_cons,
          List.countP_nil, List.cons_append, List.nil_append,
          List.singleton_append, List.append_nil, pure_run, h0, hs, hp, hd,
          hu0, hu1, h1, Bool.false_eq_true, if_false, if_true, Nat.add_zero,
          Nat.zero_add, List.take]
      case ok =>
        simp only [_enable_port_via_schedule, _get_disable_profile_id,
          bind_eq, CliM.bind, SiteClient.get_switch_port,
          SiteClient.get_port_profiles, SiteClient.update_switch_port_profile,
          printLine, asyncio_sleep, CliM.emit, CliM.raiseValueError,
          CliM.ofResponse, countReads, countUpdates, List.countP_cons,
          List.countP_nil, List.cons_append, List.nil_append,
          List.singleton_append, List.append_nil, pure_run, h0, hs, hp, hd,
          hu0, hu1, h1, Bool.false_eq_true, if_false, if_true, Nat.add_zero,
          Nat.zero_add, List.take]
  · intro e h0
    have h : _enable_port_via_schedule sc device port [] =
        (Except.error (CliErr.clientError e),
         [Event.getSwitchPort device.mac port]) := by
      simp only [_enable_port_via_schedule, bind_eq, CliM.bind,
        SiteClient.get_switch_port, CliM.ofResponse, countReads,
        List.countP_nil, List.nil_append, h0]
    exact ⟨h, by rw [h]; rfl⟩

/-- Witness for claim C6: on the concrete scenario the first six events of
the enable run end with the restore to `p-default`, and with a failing
initial read the run stops with the read error and no mutating event. -/
theorem original_profile_capture_witness :
    (_enable_port_via_schedule scWit devWit 3 []).2.take 6 =
      [Event.getSwitchPort "AA:BB:CC:DD:EE:FF" 3,
       Event.getPortProfiles,
       Event.updateProfile "AA:BB:CC:DD:EE:FF" 3 "p-1",
       Event.println "Port 3 temporarily disabled",
       Event.sleepFor 1,
       Event.updateProfile "AA:BB:CC:DD:EE:FF" 3 "p-default"] ∧
    (_enable_port_via_schedule scReadFail devWit 3 [] =
      (Except.error (CliErr.clientError "port not found"),
       [Event.getSwitchPort "AA:BB:CC:DD:EE:FF" 3]) ∧
     mutEvents (_enable_port_via_schedule scReadFail devWit 3 []).2 = []) := by
  have h1 := (original_profile_capture scWit devWit 3).1 pdDefault
    profilesWit "p-1" rfl rfl rfl rfl rfl
  have h2 := (original_profile_capture scReadFail devWit 3).2
    "port not found" rfl
  exact ⟨h1, h2⟩

/-- Claim C7: every failure raised by a client call propagates uncaught,
with no retry and no compensating mutation, in both procedures: the run
ends in exactly that error and the trace stops at the failing call,
whichever call it is — the initial read (both procedures), the enable
path's schedule-branch override update, the schedule-less enable path's
profile fetch, temporary-disable update, restore update or final status
re-fetch, and the disable path's schedule-branch override update, profile
fetch or profile update.  In particular, when the restore update fails
after the temporary disable succeeded, the run ends with the successful
profile-swap to the `"Disable"` id as the last completed mutation and no
call after the failed restore. -/
theorem client_failure_propagates
    (sc : SiteClient) (device : OmadaDevice) (port : Nat) :
    (∀ e, sc.get_switch_port_resp 0 = Except.error e →
      _enable_port_via_schedule sc device port [] =
        (Except.error (CliErr.clientError e),
         [Event.getSwitchPort device.mac port]) ∧
      ∀ apply_schedule : Bool,
        _disable_port_via_schedule sc device port apply_schedule [] =
          (Except.error (CliErr.clientError e),
           [Event.getSwitchPort device.mac port])) ∧
    (∀ pd e, sc.get_switch_port_resp 0 = Except.ok pd →
      pd.has_schedule = true →
      sc.update_switch_port_resp 0 = Except.error e →
      _enable_port_via_schedule sc device port [] =
        (Except.error (CliErr.clientError e),
         [Event.getSwitchPort device.mac port,
          Event.updateOverrides device.mac port
            (setKey (_preserve_port_settings pd) "scheduleEnable"
              (Value.vBool false))])) ∧
    (∀ pd e, sc.get_switch_port_resp 0 = Except.ok pd →
      pd.has_schedule = false →
      sc.get_port_profiles_resp = Except.error e →
      _enable_port_via_schedule sc device port [] =
        (Except.error (CliErr.clientError e),
         [Event.getSwitchPort device.mac port, Event.getPortProfiles])) ∧
    (∀ pd l d e, sc.get_switch_port_resp 0 = Except.ok pd →
      pd.has_schedule = false →
      sc.get_port_profiles_resp = Except.ok l →
      findFirstDisable l = some d →
      sc.update_switch_port_resp 0 = Except.error e →
      _enable_port_via_schedule sc device port [] =
        (Except.error (CliErr.clientError e),
         [Event.getSwitchPort device.mac port,
          Event.getPortProfiles,
          Event.updateProfile device.mac port d])) ∧
    (∀ pd l d e, sc.get_switch_port_resp 0 = Except.ok pd →
      pd.has_schedule = false →
      sc.get_port_profiles_resp = Except.ok l →
      findFirstDisable l = some d →
      sc.update_switch_port_resp 0 = Except.ok () →
      sc.update_switch_port_resp 1 = Except.error e →
      _enable_port_via_schedule sc device port [] =
        (Except.error (CliErr.clientError e),
         [Event.getSwitchPort device.mac port,
          Event.getPortProfiles,
          Event.updateProfile device.mac port d,
          Event.println s!"Port {port} temporarily disabled",
          Event.sleepFor 1,
          Event.updateProfile device.mac port pd.profile_id]) ∧
      mutEvents (_enable_port_via_schedule sc device port []).2 =
        [Event.updateProfile device.mac port d,
         Event.updateProfile device.mac port pd.profile_id]) ∧
    (∀ pd l d e, sc.get_switch_port_resp 0 = Except.ok pd →
      pd.has_schedule = false →
      sc.get_port_profiles_resp = Except.ok l →
      findFirstDisable l = some d →
      sc.update_switch_port_resp 0 = Except.ok () →
      sc.update_switch_port_resp 1 = Except.ok () →
      sc.get_switch_port_resp 1 = Except.error e →
      _enable_port_via_schedule sc device port [] =
        (Except.error (CliErr.clientError e),
         [Event.getSwitchPort device.mac port,
          Event.getPortProfiles,
          Event.updateProfile device.mac port d,
          Event.println s!"Port {port} temporarily disabled",
          Event.sleepFor 1,
          Event.updateProfile device.mac port pd.profile_id,
          Event.println s!"Port {port} re-enabled with original profile",
          Event.getSwitchPort device.mac port])) ∧
    (∀ pd apply_schedule e, sc.get_switch_port_resp 0 = Except.ok pd →
      (pd.has_schedule && apply_schedule) = true →
      sc.update_switch_port_resp 0 = Except.error e →
      _disable_port_via_schedule sc device port apply_schedule [] =
        (Except.error (CliErr.clientError e),
         [Event.getSwitchPort device.mac port,
          Event.updateOverrides device.mac port
            (setKey (_preserve_port_settings pd) "scheduleEnable"
              (Value.vBool true))])) ∧
    (∀ pd apply_schedule e, sc.get_switch_port_resp 0 = Except.ok pd →
      (pd.has_schedule && apply_schedule) = false →
      sc.get_port_profiles_resp = Except.error e →
      _disable_port_via_schedule sc device port apply_schedule [] =
        (Except.error (CliErr.clientError e),
         [Event.getSwitchPort device.mac port, Event.getPortProfiles])) ∧
    (∀ pd apply_schedule l d e, sc.get_switch_port_resp 0 = Except.ok pd →
      (pd.has_schedule && apply_schedule) = false →
      sc.get_port_profiles_resp = Except.ok l →
      findFirstDisable l = some d →
      sc.update_switch_port_resp 0 = Except.error e →
      _disable_port_via_schedule sc device port apply_schedule [] =
        (Except.error (CliErr.clientError e),
         [Event.getSwitchPort device.mac port,
          Event.getPortProfiles,
          Event.updateProfile device.mac port d])) := by
  refine ⟨fun e h0 => ⟨?_, fun apply_schedule => ?_⟩,
    fun pd e h0 hs hu0 => ?_,
    fun pd e h0 hs hp => ?_,
    fun pd l d e h0 hs hp hd hu0 => ?_,
    fun pd l d e h0 hs hp hd hu0 hu1 => ?_,
    fun pd l d e h0 hs hp hd hu0 hu1 h1 => ?_,
    fun pd apply_schedule e h0 hcond hu0 => ?_,
    fun pd apply_schedule e h0 hcond hp => ?_,
    fun pd apply_schedule l d e h0 hcond hp hd hu0 => ?_⟩
  · simp only [_enable_port_via_schedule, bind_eq, CliM.bind,
      SiteClient.get_switch_port, CliM.ofResponse, countReads,
      List.countP_nil, List.nil_append, h0]
  · simp only [_disable_port_via_schedule, bind_eq, CliM.bind,
      SiteClient.get_switch_port, CliM.ofResponse, countReads,
      List.countP_nil, List.nil_append, h0]
  · simp only [_enable_port_via_schedule, bind_eq, CliM.bind,
      SiteClient.get_switch_port, SiteClient.update_switch_port_overrides,
      CliM.ofResponse, countReads, countUpdates, List.countP_cons,
      List.countP_nil, List.cons_append, List.nil_append,
      List.singleton_append, h0, hs, hu0, Bool.false_eq_true, if_false,
      if_true, Nat.add_zero, Nat.zero_add]
  · simp only [_enable_port_via_schedule, _get_disable_profile_id, bind_eq,
      CliM.bind, SiteClient.get_switch_port, SiteClient.get_port_profiles,
      CliM.ofResponse, countReads, List.countP_nil, List.cons_append,
      List.nil_append, List.singleton_append, h0, hs, hp,
      Bool.false_eq_true, if_false]
  · simp only [_enable_port_via_schedule, _get_disable_profile_id, bind_eq,
      CliM.bind, SiteClient.get_switch_port, SiteClient.get_port_profiles,
      SiteClient.update_switch_port_profile, CliM.ofResponse, countReads,
      countUpdates, List.countP_cons, List.countP_nil, List.cons_append,
      List.nil_append, List.singleton_append, List.append_nil, pure_run,
      h0, hs, hp, hd, hu0, Bool.false_eq_true, if_false, if_true,
      Nat.add_zero, Nat.zero_add]
  · have h : _enable_port_via_schedule sc device port [] =
        (Except.error (CliErr.clientError e),
         [Event.getSwitchPort device.mac port,
          Event.getPortProfiles,
          Event.updateProfile device.mac port d,
          Event.println s!"Port {port} temporarily disabled",
          Event.sleepFor 1,
          Event.updateProfile device.mac port pd.profile_id]) := by
      simp only [_enable_port_via_schedule, _get_disable_profile_id, bind_eq,
        CliM.bind, SiteClient.get_switch_port, SiteClient.get_port_profiles,
        SiteClient.update_switch_port_profile, printLine, asyncio_sleep,
        CliM.emit, CliM.raiseValueError, CliM.ofResponse, countReads,
        countUpdates, List.countP_cons, List.countP_nil, List.cons_append,
        List.nil_append, List.singleton_append, List.append_nil, pure_run,
        h0, hs, hp, hd, hu0, hu1, Bool.false_eq_true, if_false, if_true,
        Nat.add_zero, Nat.zero_add]
    exact ⟨h, by rw [h]; rfl⟩
  · simp only [_enable_port_via_schedule, _get_disable_profile_id, bind_eq,
      CliM.bind, SiteClient.get_switch_port, SiteClient.get_port_profiles,
      SiteClient.update_switch_port_profile, printLine, asyncio_sleep,
      CliM.emit, CliM.raiseValueError, CliM.ofResponse, countReads,
      countUpdates, List.countP_cons, List.countP_nil, List.cons_append,
      List.nil_append, List.singleton_append, List.append_nil, pure_run,
      h0, hs, hp, hd, hu0, hu1, h1, Bool.false_eq_true, if_false, if_true,
      Nat.add_zero, Nat.zero_add]
  · simp only [_disable_port_via_schedule, bind_eq, CliM.bind,
      SiteClient.get_switch_port, SiteClient.update_switch_port_overrides,
      CliM.ofResponse, countReads, countUpdates, List.countP_cons,
      List.countP_nil, List.cons_append, List.nil_append,
      List.singleton_append, h0, hcond, hu0, Bool.false_eq_true, if_false,
      if_true, Nat.add_zero, Nat.zero_add]
  · simp only [_disable_port_via_schedule, _get_disable_profile_id, bind_eq,
      CliM.bind, SiteClient.get_switch_port, SiteClient.get_port_profiles,
      CliM.ofResponse, countReads, List.countP_nil, List.cons_append,
      List.nil_append, List.singleton_append, h0, hcond, hp,
      Bool.false_eq_true, if_false]
  · simp only [_disable_port_via_schedule, _get_disable_profile_id, bind_eq,
      CliM.bind, SiteClient.get_switch_port, SiteClient.get_port_profiles,
      SiteClient.update_switch_port_profile, CliM.ofResponse, countReads,
      countUpdates, List.countP_cons, List.countP_nil, List.cons_append,
      List.nil_append, List.singleton_append, List.append_nil, pure_run,
      h0, hcond, hp, hd, hu0, Bool.false_eq_true, if_false, if_true,
      Nat.add_zero, Nat.zero_add]

/-- Witness for claim C7, exercising every failure point: the failed
initial read (both procedures, `scReadFail`); the failed schedule-branch
override update of enable and of disable and the failed direct profile
update of disable (`scUpdateFail`); the failed profile fetch on both
schedule-less paths (`scProfilesFail`); the failed restore after a
successful temporary disable (`scRestoreFail`); and the failed final
status re-fetch (`scRefetchFail`). -/
theorem client_failure_propagates_witness :
    (_enable_port_via_schedule scReadFail devWit 3 [] =
      (Except.error (CliErr.clientError "port not found"),
       [Event.getSwitchPort "AA:BB:CC:DD:EE:FF" 3])) ∧
    (_disable_port_via_schedule scReadFail devWit 3 true [] =
      (Except.error (CliErr.clientError "port not found"),
       [Event.getSwitchPort "AA:BB:CC:DD:EE:FF" 3])) ∧
    (_enable_port_via_schedule scUpdateFail devWit 3 [] =
      (Except.error (CliErr.clientError "write failed"),
       [Event.getSwitchPort "AA:BB:CC:DD:EE:FF" 3,
        Event.updateOverrides "AA:BB:CC:DD:EE:FF" 3
          (setKey (_preserve_port_settings pdSched) "scheduleEnable"
            (Value.vBool false))])) ∧
    (_enable_port_via_schedule scProfilesFail devWit 3 [] =
      (Except.error (CliErr.clientError "profiles down"),
       [Event.getSwitchPort "AA:BB:CC:DD:EE:FF" 3,
        Event.getPortProfiles])) ∧
    (_enable_port_via_schedule scRestoreFail devWit 3 [] =
      (Except.error (CliErr.clientError "network down"),
       [Event.getSwitchPort "AA:BB:CC:DD:EE:FF" 3,
        Event.getPortProfiles,
        Event.updateProfile "AA:BB:CC:DD:EE:FF" 3 "p-1",
        Event.println "Port 3 temporarily disabled",
        Event.sleepFor 1,
        Event.updateProfile "AA:BB:CC:DD:EE:FF" 3 "p-default"]) ∧
     mutEvents (_enable_port_via_schedule scRestoreFail devWit 3 []).2 =
       [Event.updateProfile "AA:BB:CC:DD:EE:FF" 3 "p-1",
        Event.updateProfile "AA:BB:CC:DD:EE:FF" 3 "p-default"]) ∧
    (_enable_port_via_schedule scRefetchFail devWit 3 [] =
      (Except.error (CliErr.clientError "refetch failed"),
       [Event.getSwitchPort "AA:BB:CC:DD:EE:FF" 3,
        Event.getPortProfiles,
        Event.updateProfile "AA:BB:CC:DD:EE:FF" 3 "p-1",
        Event.println "Port 3 temporarily disabled",
        Event.sleepFor 1,
        Event.updateProfile "AA:BB:CC:DD:EE:FF" 3 "p-default",
        Event.println "Port 3 re-enabled with original profile",
        Event.getSwitchPort "AA:BB:CC:DD:EE:FF" 3])) ∧
    (_disable_port_via_schedule scUpdateFail devWit 3 true [] =
      (Except.error (CliErr.clientError "write failed"),
       [Event.getSwitchPort "AA:BB:CC:DD:EE:FF" 3,
        Event.updateOverrides "AA:BB:CC:DD:EE:FF" 3
          (setKey (_preserve_port_settings pdSched) "scheduleEnable"
            (Value.vBool true))])) ∧
    (_disable_port_via_schedule scProfilesFail devWit 3 false [] =
      (Except.error (CliErr.clientError "profiles down"),
       [Event.getSwitchPort "AA:BB:CC:DD:EE:FF" 3,
        Event.getPortProfiles])) ∧
    (_disable_port_via_schedule scUpdateFail devWit 3 false [] =
      (Except.error (CliErr.clientError "write failed"),
       [Event.getSwitchPort "AA:BB:CC:DD:EE:FF" 3,
        Event.getPortProfiles,
        Event.updateProfile "AA:BB:CC:DD:EE:FF" 3 "p-1"])) := by
  have hrd := (client_failure_propagates scReadFail devWit 3).1
    "port not found" rfl
  have hb := (client_failure_propagates scUpdateFail devWit 3).2.1
    pdSched "write failed" rfl rfl rfl
  have hc := (client_failure_propagates scProfilesFail devWit 3).2.2.1
    pdDefault "profiles down" rfl rfl rfl
  have he := (client_failure_propagates scRestoreFail devWit 3).2.2.2.2.1
    pdDefault profilesWit "p-1" "network down" rfl rfl rfl rfl rfl rfl
  have hf := (client_failure_propagates scRefetchFail devWit 3).2.2.2.2.2.1
    pdDefault profilesWit "p-1" "refetch failed" rfl rfl rfl rfl rfl rfl rfl
  have hg := (client_failure_propagates scUpdateFail devWit 3).2.2.2.2.2.2.1
    pdSched true "write failed" rfl rfl rfl
  have hh :=
    (client_failure_propagates scProfilesFail devWit 3).2.2.2.2.2.2.2.1
    pdDefault false "profiles down" rfl rfl rfl
  have hi :=
    (client_failure_propagates scUpdateFail devWit 3).2.2.2.2.2.2.2.2
    pdSched false profilesWit "p-1" "write failed" rfl rfl rfl rfl rfl
  exact ⟨hrd.1, hrd.2 true, hb, hc, he, hf, hg, hh, hi⟩

/-- Claim C9: the `"Disable"` profile lookup returns the id of the first
profile named `"Disable"` in list order — in particular with several such
profiles the earliest one wins — both for the pure scan and for the
client-level lookup. -/
theorem disable_profile_first_match
    (l1 l2 : List OmadaPortProfile) (p : OmadaPortProfile)
    (hne : ∀ q ∈ l1, q.name ≠ "Disable") (hp : p.name = "Disable") :
    findFirstDisable (l1 ++ p :: l2) = some p.profile_id ∧
    ∀ sc : SiteClient, ∀ t : Trace,
      sc.get_port_profiles_resp = Except.ok (l1 ++ p :: l2) →
      _get_disable_profile_id sc t =
        (Except.ok p.profile_id, t ++ [Event.getPortProfiles]) := by
  have hfind : findFirstDisable (l1 ++ p :: l2) = some p.profile_id := by
    induction l1 with
    | nil => simp [findFirstDisable, hp]
    | cons q rest ih =>
      have hq : q.name ≠ "Disable" := hne q (List.mem_cons_self q rest)
      have hrest : ∀ r ∈ rest, r.name ≠ "Disable" :=
        fun r hr => hne r (List.mem_cons_of_mem q hr)
      simp [findFirstDisable, hq, ih hrest]
  exact ⟨hfind, fun sc t hresp => get_disable_profile_id_ok t hresp hfind⟩

/-- Witness for claim C9: on the duplicate list
`[{All, p-0}, {Disable, p-1}, {Disable, p-2}]` the lookup returns `p-1`,
the earliest match. -/
theorem disable_profile_first_match_witness :
    findFirstDisable profilesDup = some "p-1" ∧
    _get_disable_profile_id scDup [] =
      (Except.ok "p-1", [Event.getPortProfiles]) := by
  have h := disable_profile_first_match [⟨"All", "p-0"⟩]
    [⟨"Disable", "p-2"⟩] ⟨"Disable", "p-1"⟩ (by decide) rfl
  exact ⟨h.1, h.2 scDup [] rfl⟩

/-- Counterexample to claim C8 as stated: with `envDumpFail` the enable
branch itself completes without an exception (first conjunct), yet the
command does not return exit code 0 — with the dump flag set, the
post-toggle dump re-fetch raises and the error propagates, so the exit
code does depend on the dump flag. -/
theorem command_exit_code_cex :
    (_enable_port_via_schedule scDumpFail devWit 3
       [Event.getSiteClient, Event.getDeviceMac "AA:BB:CC:DD:EE:FF",
        Event.getDevice "AA:BB:CC:DD:EE:FF"]).1 = Except.ok true ∧
    (command_switch_port envDumpFail argsEnableDump []).1 =
      Except.error (CliErr.clientError "boom") :=
  ⟨rfl, rfl⟩

/-- Claim C8, amended: if the site client, device-MAC and device lookups
succeed, the selected toggle branch (enable, or else disable) runs to
completion without an exception, and — when the dump flag is set — the
post-toggle dump re-fetch also succeeds, then the command returns exit
code 0, regardless of which toggle strategy was taken inside the branch
and of the dump flag. -/
theorem command_exit_zero_on_success
    (env : OmadaClientEnv) (args : Args) (sc : SiteClient) (m : String)
    (device : OmadaDevice) (t' : Trace)
    (h1 : env.get_site_client_resp = Except.ok sc)
    (h2 : env.get_device_mac_resp = Except.ok m)
    (h3 : env.get_device_resp = Except.ok device)
    (hen : args.enable = true →
      _enable_port_via_schedule sc device args.port
        [Event.getSiteClient, Event.getDeviceMac args.mac,
         Event.getDevice m] = (Except.ok true, t'))
    (hdis : args.enable = false → args.disableFlag = true →
      _disable_port_via_schedule sc device args.port args.apply_schedule
        [Event.getSiteClient, Event.getDeviceMac args.mac,
         Event.getDevice m] = (Except.ok true, t'))
    (hflag : args.enable = true ∨
      (args.enable = false ∧ args.disableFlag = true))
    (hdm : args.dump = true →
      ∃ rp, sc.get_switch_port_resp (countReads t') = Except.ok rp) :
    (command_switch_port env args []).1 = Except.ok 0 := by
  rcases hflag with hfen | ⟨hfen, hfdis⟩
  · have hb := hen hfen
    cases hd : args.dump
    case false =>
      simp [command_switch_port, bind_eq, CliM.bind, get_site_client,
        get_device_mac, get_device, CliM.ofResponse, pure_run,
        List.cons_append, List.nil_append, List.singleton_append,
        h1, h2, h3, hfen, hb, hd, Bool.false_eq_true, if_false, if_true]
    case true =>
      obtain ⟨rp, hrp⟩ := hdm hd
      simp [command_switch_port, bind_eq, CliM.bind, get_site_client,
        get_device_mac, get_device, dump_raw_data, CliM.emit,
        SiteClient.get_switch_port, CliM.ofResponse, pure_run,
        List.cons_append, List.nil_append, List.singleton_append,
        h1, h2, h3, hfen, hb, hd, hrp, Bool.false_eq_true, if_false, if_true]
  · have hb := hdis hfen hfdis
    cases hd : args.dump
    case false =>
      simp [command_switch_port, bind_eq, CliM.bind, get_site_client,
        get_device_mac, get_device, CliM.ofResponse, pure_run,
        List.cons_append, List.nil_append, List.singleton_append,
        h1, h2, h3, hfen, hfdis, hb, hd, Bool.false_eq_true, if_false,
        if_true]
    case true =>
      obtain ⟨rp, hrp⟩ := hdm hd
      simp [command_switch_port, bind_eq, CliM.bind, get_site_client,
        get_device_mac, get_device, dump_raw_data, CliM.emit,
        SiteClient.get_switch_port, CliM.ofResponse, pure_run,
        List.cons_append, List.nil_append, List.singleton_append,
        h1, h2, h3, hfen, hfdis, hb, hd, hrp, Bool.false_eq_true, if_false,
        if_true]

/-- Witness for the amended claim C8: the concrete enable invocation with
the dump flag set returns exit code 0. -/
theorem command_exit_zero_on_success_witness :
    (command_switch_port envWit argsEnableDump []).1 = Except.ok 0 := by
  exact command_exit_zero_on_success envWit argsEnableDump scWit
    "AA:BB:CC:DD:EE:FF" devWit
    [Event.getSiteClient,
     Event.getDeviceMac "AA:BB:CC:DD:EE:FF",
     Event.getDevice "AA:BB:CC:DD:EE:FF",
     Event.getSwitchPort "AA:BB:CC:DD:EE:FF" 3,
     Event.getPortProfiles,
     Event.updateProfile "AA:BB:CC:DD:EE:FF" 3 "p-1",
     Event.println "Port 3 temporarily disabled",
     Event.sleepFor 1,
     Event.updateProfile "AA:BB:CC:DD:EE:FF" 3 "p-default",
     Event.println "Port 3 re-enabled with original profile",
     Event.getSwitchPort "AA:BB:CC:DD:EE:FF" 3,
     Event.println "Port 3 status: enabled"]
    rfl rfl rfl (fun _ => rfl)
    (fun h => absurd h (by simp [argsEnableDump, argsEnable]))
    (Or.inl rfl) (fun _ => ⟨pdRefreshed, rfl⟩)

/-- Claim C10: the raw-dump flag never changes the sequence of mutating
calls (for every environment and argument record, the mutating events of
the run with the flag set equal those of the run without it), and on every
invocation whose flag-less run completes with exit code 0 the flag causes
exactly one additional `get_switch_port` read, placed after the whole
toggle trace and followed at most by the dump output — never by another
client call. -/
theorem dump_flag_adds_single_read
    (env : OmadaClientEnv) (args : Args) :
    mutEvents (command_switch_port env { args with dump := true } []).2 =
      mutEvents (command_switch_port env { args with dump := false } []).2 ∧
    ((command_switch_port env { args with dump := false } []).1 =
        Except.ok 0 →
      ∃ mac rest,
        (command_switch_port env { args with dump := true } []).2 =
          (command_switch_port env { args with dump := false } []).2 ++
            Event.getSwitchPort mac args.port :: rest ∧
        mutEvents (Event.getSwitchPort mac args.port :: rest) = [] ∧
        countReads (Event.getSwitchPort mac args.port :: rest) = 1) := by
  rcases h1 : env.get_site_client_resp with e1 | sc
  case error =>
    constructor
    · simp [command_switch_port, bind_eq, CliM.bind, get_site_client,
        CliM.ofResponse, h1]
    · intro hok
      simp [command_switch_port, bind_eq, CliM.bind, get_site_client,
        CliM.ofResponse, h1] at hok
  case ok =>
  rcases h2 : env.get_device_mac_resp with e2 | m
  case error =>
    constructor
    · simp [command_switch_port, bind_eq, CliM.bind, get_site_client,
        get_device_mac, CliM.ofResponse, h1, h2]
    · intro hok
      simp [command_switch_port, bind_eq, CliM.bind, get_site_client,
        get_device_mac, CliM.ofResponse, h1, h2] at hok
  case ok =>
  rcases h3 : env.get_device_resp with e3 | device
  case error =>
    constructor
    · simp [command_switch_port, bind_eq, CliM.bind, get_site_client,
        get_device_mac, get_device, CliM.ofResponse, h1, h2, h3]
    · intro hok
      simp [command_switch_port, bind_eq, CliM.bind, get_site_client,
        get_device_mac, get_device, CliM.ofResponse, h1, h2, h3] at hok
  case ok =>
  cases hen : args.enable
  case true =>
    rcases hb : _enable_port_via_schedule sc device args.port
        [Event.getSiteClient, Event.getDeviceMac args.mac, Event.getDevice m]
      with ⟨r, t4⟩
    rcases r with e4 | b4
    case error =>
      constructor
      · simp [command_switch_port, bind_eq, CliM.bind, get_site_client,
          get_device_mac, get_device, CliM.ofResponse, pure_run,
          List.cons_append, List.nil_append, List.singleton_append,
          h1, h2, h3, hen, hb]
      · intro hok
        simp [command_switch_port, bind_eq, CliM.bind, get_site_client,
          get_device_mac, get_device, CliM.ofResponse, pure_run,
          List.cons_append, List.nil_append, List.singleton_append,
          h1, h2, h3, hen, hb] at hok
    case ok =>
      rcases hr : sc.get_switch_port_resp (countReads t4) with e5 | rp
      case error =>
        constructor
        · simp [command_switch_port, bind_eq, CliM.bind, get_site_client,
            get_device_mac, get_device, SiteClient.get_switch_port,
            CliM.ofResponse, pure_run, mutEvents, List.filter_append,
            List.cons_append, List.nil_append, List.singleton_append,
            h1, h2, h3, hen, hb, hr]
        · intro _
          refine ⟨device.mac, [], ?_, rfl, rfl⟩
          simp [command_switch_port, bind_eq, CliM.bind, get_site_client,
            get_device_mac, get_device, SiteClient.get_switch_port,
            CliM.ofResponse, pure_run, List.cons_append, List.nil_append,
            List.singleton_append, h1, h2, h3, hen, hb, hr]
      case ok =>
        constructor
        · simp [command_switch_port, bind_eq, CliM.bind, get_site_client,
            get_device_mac, get_device, SiteClient.get_switch_port,
            dump_raw_data, CliM.emit, CliM.ofResponse, pure_run, mutEvents,
            List.filter_append, List.cons_append, List.nil_append,
            List.singleton_append, h1, h2, h3, hen, hb, hr]
        · intro _
          refine ⟨device.mac, [Event.dumpRaw rp.raw_data], ?_, rfl, rfl⟩
          simp [command_switch_port, bind_eq, CliM.bind, get_site_client,
            get_device_mac, get_device, SiteClient.get_switch_port,
            dump_raw_data, CliM.emit, CliM.ofResponse, pure_run,
            List.cons_append, List.nil_append, List.singleton_append,
            List.append_assoc, h1, h2, h3, hen, hb, hr]
  case false =>
  cases hdis : args.disableFlag
  case true =>
    rcases hb : _disable_port_via_schedule sc device args.port
        args.apply_schedule
        [Event.getSiteClient, Event.getDeviceMac args.mac, Event.getDevice m]
      with ⟨r, t4⟩
    rcases r with e4 | b4
    case error =>
      constructor
      · simp [command_switch_port, bind_eq, CliM.bind, get_site_client,
          get_device_mac, get_device, CliM.ofResponse, pure_run,
          List.cons_append, List.nil_append, List.singleton_append,
          h1, h2, h3, hen, hdis, hb]
      · intro hok
        simp [command_switch_port, bind_eq, CliM.bind, get_site_client,
          get_device_mac, get_device, CliM.ofResponse, pure_run,
          List.cons_append, List.nil_append, List.singleton_append,
          h1, h2, h3, hen, hdis, hb] at hok
    case ok =>
      rcases hr : sc.get_switch_port_resp (countReads t4) with e5 | rp
      case error =>
        constructor
        · simp [command_switch_port, bind_eq, CliM.bind, get_site_client,
            get_device_mac, get_device, SiteClient.get_switch_port,
            CliM.ofResponse, pure_run, mutEvents, List.filter_append,
            List.cons_append, List.nil_append, List.singleton_append,
            h1, h2, h3, hen, hdis, hb, hr]
        · intro _
          refine ⟨device.mac, [], ?_, rfl, rfl⟩
          simp [command_switch_port, bind_eq, CliM.bind, get_site_client,
            get_device_mac, get_device, SiteClient.get_switch_port,
            CliM.ofResponse, pure_run, List.cons_append, List.nil_append,
            List.singleton_append, h1, h2, h3, hen, hdis, hb, hr]
      case ok =>
        constructor
        · simp [command_switch_port, bind_eq, CliM.bind, get_site_client,
            get_device_mac, get_device, SiteClient.get_switch_port,
            dump_raw_data, CliM.emit, CliM.ofResponse, pure_run, mutEvents,
            List.filter_append, List.cons_append, List.nil_append,
            List.singleton_append, h1, h2, h3, hen, hdis, hb, hr]
        · intro _
          refine ⟨device.mac, [Event.dumpRaw rp.raw_data], ?_, rfl, rfl⟩
          simp [command_switch_port, bind_eq, CliM.bind, get_site_client,
            get_device_mac, get_device, SiteClient.get_switch_port,
            dump_raw_data, CliM.emit, CliM.ofResponse, pure_run,
            List.cons_append, List.nil_append, List.singleton_append,
            List.append_assoc, h1, h2, h3, hen, hdis, hb, hr]
  case false =>
    rcases hr : sc.get_switch_port_resp 0 with e5 | rp
    case error =>
      constructor
      · simp [command_switch_port, bind_eq, CliM.bind, get_site_client,
          get_device_mac, get_device, SiteClient.get_switch_port,
          CliM.ofResponse, pure_run, mutEvents, countReads, List.countP_nil,
          List.countP_cons, List.filter_append, List.cons_append,
          List.nil_append, List.singleton_append, h1, h2, h3, hen, hdis, hr]
      · intro _
        refine ⟨device.mac, [], ?_, rfl, rfl⟩
        simp [command_switch_port, bind_eq, CliM.bind, get_site_client,
          get_device_mac, get_device, SiteClient.get_switch_port,
          CliM.ofResponse, pure_run, countReads, List.countP_nil,
          List.countP_cons, List.cons_append, List.nil_append,
          List.singleton_append, h1, h2, h3, hen, hdis, hr]
    case ok =>
      constructor
      · simp [command_switch_port, bind_eq, CliM.bind, get_site_client,
          get_device_mac, get_device, SiteClient.get_switch_port,
          dump_raw_data, CliM.emit, CliM.ofResponse, pure_run, mutEvents,
          countReads, List.countP_nil, List.countP_cons, List.filter_append,
          List.cons_append, List.nil_append, List.singleton_append,
          h1, h2, h3, hen, hdis, hr]
      · intro _
        refine ⟨device.mac, [Event.dumpRaw rp.raw_data], ?_, rfl, rfl⟩
        simp [command_switch_port, bind_eq, CliM.bind, get_site_client,
          get_device_mac, get_device, SiteClient.get_switch_port,
          dump_raw_data, CliM.emit, CliM.ofResponse, pure_run, countReads,
          List.countP_nil, List.countP_cons, List.cons_append,
          List.nil_append, List.singleton_append, List.append_assoc,
          h1, h2, h3, hen, hdis, hr]

/-- Witness for claim C10: on the concrete enable invocation, the mutating
events coincide with and without the dump flag, and the dump run extends
the flag-less run by exactly one read plus the dump output. -/
theorem dump_flag_adds_single_read_witness :
    (mutEvents (command_switch_port envWit argsEnableDump []).2 =
      mutEvents (command_switch_port envWit argsEnable []).2) ∧
    ∃ mac rest,
      (command_switch_port envWit argsEnableDump []).2 =
        (command_switch_port envWit argsEnable []).2 ++
          Event.getSwitchPort mac 3 :: rest ∧
      mutEvents (Event.getSwitchPort mac 3 :: rest) = [] ∧
      countReads (Event.getSwitchPort mac 3 :: rest) = 1 := by
  have h := dump_flag_adds_single_read envWit argsEnable
  exact ⟨h.1, h.2 rfl⟩

end SwitchPort
